import Mathlib

set_option autoImplicit false

/-!
Shallow embedding of the popup session/authentication state machine of
src/src/pages/Popup/Popup.tsx, together with models of the collaborators the
popup imports (the stateMachine module and the iCloud client), and proofs of
the specified properties about them.
-/

namespace Popup

/-- Modelled from the spec: the `PopupState` enum of the stateMachine module
(imported by Popup.tsx from the stateMachine file, which is not under src/).
The spec
lists exactly the four phases SignedOut, SignedIn, Verified and
VerifiedAndManaging. -/
inductive PopupState where
  | SignedOut
  | SignedIn
  | Verified
  | VerifiedAndManaging
deriving DecidableEq, Repr

/-- Modelled from the spec: the union of all per-phase action string literals
of the stateMachine module (not under src/): SignedOutAction, SignedInAction,
VerifiedAction and VerifiedAndManagingAction. -/
inductive PopupAction where
  | SUCCESSFUL_SIGN_IN
  | SUCCESSFUL_VERIFICATION
  | SUCCESSFUL_SIGN_OUT
  | MANAGE
  | GENERATE
deriving DecidableEq, Repr

open PopupState PopupAction

/-- Modelled from the spec: the STATE_MACHINE_TRANSITIONS table of the
stateMachine module (not under src/). The transition diagram of the spec lists
exactly seven legal (phase, action) pairs; an action absent from the row of a
phase is illegal there, rendered here as `none` (in the TypeScript source,
illegal pairs are excluded by the per-phase action types at compile time). -/
def STATE_MACHINE_TRANSITIONS : PopupState → PopupAction → Option PopupState
  | SignedOut, SUCCESSFUL_SIGN_IN => some SignedIn
  | SignedIn, SUCCESSFUL_VERIFICATION => some Verified
  | SignedIn, SUCCESSFUL_SIGN_OUT => some SignedOut
  | Verified, MANAGE => some VerifiedAndManaging
  | Verified, SUCCESSFUL_SIGN_OUT => some SignedOut
  | VerifiedAndManaging, GENERATE => some Verified
  | VerifiedAndManaging, SUCCESSFUL_SIGN_OUT => some SignedOut
  | _, _ => none

/-- The four screen components that `transitionToNextStateElement` can return
(Popup.tsx lines 882-913): one per phase. -/
inductive Screen where
  | SignInForm
  | TwoFaForm
  | HmeGenerator
  | HmeManager
deriving DecidableEq, Repr

/-- Embedding of `transitionToNextStateElement` (Popup.tsx lines 882-913): a
switch over the phase returning the screen for that phase, with a default
branch that throws `Unhandled PopupState case`. The throw is modelled as
`Except.error`; the guarded cases are written as an if-chain so that the
default branch is present in the embedding exactly as in the source. -/
def transitionToNextStateElement (state : PopupState) : Except String Screen :=
  if state = SignedOut then Except.ok Screen.SignInForm
  else if state = SignedIn then Except.ok Screen.TwoFaForm
  else if state = Verified then Except.ok Screen.HmeGenerator
  else if state = VerifiedAndManaging then Except.ok Screen.HmeManager
  else Except.error "Unhandled PopupState case"

/-- Modelled from the spec: ICloudClientSessionData (declared in the iCloudClient
module, not under src/) is an opaque persisted record of provider tokens
(session tokens, device trust identifiers, scnt/session identifiers) together
with the verified-session markers that only accountLogin sets. It has one
well-defined empty value. -/
structure ICloudClientSessionData where
  providerTokens : List (String × String)
  verifiedMarkers : List (String × String)
deriving DecidableEq, Repr

/-- Modelled from the spec: the well-defined empty session value
EMPTY_SESSION_DATA of the iCloudClient module (not under src/). -/
def EMPTY_SESSION_DATA : ICloudClientSessionData :=
  { providerTokens := [], verifiedMarkers := [] }

/-- Modelled from the spec: a session is present iff its SessionData is
non-empty. -/
def sessionPresent (s : ICloudClientSessionData) : Bool :=
  decide (s ≠ EMPTY_SESSION_DATA)

/-- Modelled from the spec: `authenticated` is a derived condition, strictly
stronger than presence, true iff SessionData carries the markers set only
after a full accept-the-second-factor round trip. -/
def authenticated (s : ICloudClientSessionData) : Bool :=
  !s.verifiedMarkers.isEmpty

/-- Modelled from the spec: validateToken() performs a lightweight
authenticated call and treats any non-success response as session-invalid; it
does not mutate SessionData. The network outcome is passed as a parameter. -/
def validateToken (tokenOk : Bool) : Except String Unit :=
  if tokenOk then Except.ok () else Except.error "token validation failed"

/-- Result of a sign-out style operation: the SessionData it leaves behind,
the failures it swallowed (logged only) and the error, if any, surfaced to the
caller. -/
structure LogOutResult where
  sessionData : ICloudClientSessionData
  swallowedErrors : List String
  raisedError : Option String
deriving DecidableEq, Repr

/-- Modelled from the spec: ICloudClient.logOut() (iCloudClient module, not
under src/) attempts the remote session invalidation best-effort, swallows a
failure of that call (logging it only), and clears the local SessionData
unconditionally; it never surfaces an error to the caller. -/
def clientLogOut (remoteOk : Bool) (s : ICloudClientSessionData) : LogOutResult :=
  let remote : Except String Unit :=
    if remoteOk then Except.ok () else Except.error "session invalidation request failed"
  let logged : List String :=
    match remote with
    | Except.ok _ => []
    | Except.error e => [e]
  { sessionData := EMPTY_SESSION_DATA
    swallowedErrors := logged
    raisedError := none }

/-- Embedding of the popup-level logOut helper (Popup.tsx lines 331-339): it
awaits client.logOut and then updates the context-menu item, swallowing a
context-menu failure with .catch(console.debug). -/
def logOut (remoteOk ctxMenuOk : Bool) (s : ICloudClientSessionData) : LogOutResult :=
  let c := clientLogOut remoteOk s
  let ctxLogged : List String :=
    if ctxMenuOk then [] else ["contextMenus update failed"]
  { sessionData := c.sessionData
    swallowedErrors := c.swallowedErrors ++ ctxLogged
    raisedError := c.raisedError }

/-- Observable outcome of one run of the validateSession effect. -/
structure ValidateSessionResult where
  calledValidateToken : Bool
  calledLogOut : Bool
  sessionData : ICloudClientSessionData
  phase : PopupState
deriving DecidableEq, Repr

/-- Embedding of the validateSession effect of the Popup component (Popup.tsx
lines 934-950): it runs on every activation (mount or change of the persisted
session data); when client.authenticated holds it awaits
client.validateToken(), and on failure awaits logOut and sets the state to
SignedOut; otherwise it does nothing. -/
def validateSession (tokenOk remoteOk ctxMenuOk : Bool) (s : ICloudClientSessionData)
    (p : PopupState) : ValidateSessionResult :=
  if authenticated s then
    match validateToken tokenOk with
    | Except.ok _ =>
      { calledValidateToken := true, calledLogOut := false, sessionData := s, phase := p }
    | Except.error _ =>
      { calledValidateToken := true
        calledLogOut := true
        sessionData := (logOut remoteOk ctxMenuOk s).sessionData
        phase := SignedOut }
  else
    { calledValidateToken := false, calledLogOut := false, sessionData := s, phase := p }

/-- Which of the four screens embed a SignOutButton: the TwoFaForm (Popup.tsx
line 266), the HmeGenerator (line 547) and the HmeManager (line 875) do; the
SignInForm does not. -/
def screenOffersSignOut : Screen → Bool
  | Screen.SignInForm => false
  | Screen.TwoFaForm => true
  | Screen.HmeGenerator => true
  | Screen.HmeManager => true

/-- Embedding of the SignOutButton click handler (Popup.tsx lines 341-356): it
awaits logOut and then invokes the transition callback with
SUCCESSFUL_SIGN_OUT; the callback handed out by the dispatcher for phase p
sets the state to the table entry of (p, SUCCESSFUL_SIGN_OUT) (lines 882-913). -/
def SignOutButton.onClick (remoteOk ctxMenuOk : Bool) (s : ICloudClientSessionData)
    (p : PopupState) : ICloudClientSessionData × Option PopupState :=
  ((logOut remoteOk ctxMenuOk s).sessionData,
    STATE_MACHINE_TRANSITIONS p SUCCESSFUL_SIGN_OUT)

/-- The full sign-out path as one total state transformer: logOut (which
clears SessionData) together with the SUCCESSFUL_SIGN_OUT transition of the
current phase; at SignedOut, where no screen offers the button and the table
row lacks the action, the phase is left in place. -/
def signOutPath (remoteOk ctxMenuOk : Bool)
    (st : ICloudClientSessionData × PopupState) :
    ICloudClientSessionData × PopupState :=
  ((logOut remoteOk ctxMenuOk st.1).sessionData,
    (STATE_MACHINE_TRANSITIONS st.2 SUCCESSFUL_SIGN_OUT).getD st.2)

/-- The three client calls made by the second-factor path, used to record the
order in which TwoFaForm.onFormSubmit starts them. -/
inductive ClientCall where
  | verify2faCode
  | trustDevice
  | accountLogin
deriving DecidableEq, Repr

/-- Modelled from the spec: verify2faCode(code) (iCloudClient module, not
under src/) submits the second-factor code to the provider and fails if the
provider rejects it; it does not set the verified-session markers. The
provider outcome is a parameter. -/
def verify2faCode (ok : Bool) (s : ICloudClientSessionData) :
    Except String ICloudClientSessionData :=
  if ok then Except.ok s else Except.error "2fa code rejected"

/-- Modelled from the spec: trustDevice() (iCloudClient module, not under
src/) sets a provider-side device-trust marker extending session longevity;
no partial-trust state is persisted locally. The provider outcome is a
parameter. -/
def trustDevice (ok : Bool) (s : ICloudClientSessionData) :
    Except String ICloudClientSessionData :=
  if ok then Except.ok s else Except.error "device trust request failed"

/-- Modelled from the spec: accountLogin() (iCloudClient module, not under
src/) finalizes the authenticated session, setting the markers that make
`authenticated` true; on failure nothing is committed. The provider outcome
is a parameter. -/
def accountLogin (ok : Bool) (s : ICloudClientSessionData) :
    Except String ICloudClientSessionData :=
  if ok then
    Except.ok { s with verifiedMarkers := [("verified-session", "true")] }
  else Except.error "account login request failed"

/-- The two inline error message literals of TwoFaForm (Popup.tsx lines 236
and 241). -/
def twoFaFailureMessage : String :=
  "2FA failed. Please try entering the code again or sign-out and sign back in."

/-- The wrong-length inline error message literal of TwoFaForm (Popup.tsx
line 241). -/
def twoFaLengthMessage : String :=
  "Please fill in all of the 6 digits of the code."

/-- Provider outcomes for the three calls of the second-factor path. -/
structure TwoFaOutcomes where
  verifyOk : Bool
  trustOk : Bool
  loginOk : Bool
deriving DecidableEq, Repr

/-- Observable outcome of one TwoFaForm submission: which client calls were
started and in which order, the SessionData afterwards, the inline error if
any, and the transition-callback action if any. -/
structure TwoFaSubmitResult where
  calls : List ClientCall
  sessionData : ICloudClientSessionData
  errorMessage : Option String
  callbackAction : Option PopupAction
deriving DecidableEq, Repr

/-- Embedding of TwoFaForm.onFormSubmit (Popup.tsx lines 220-243): when the
code has exactly 6 characters it awaits verify2faCode, then trustDevice, then
accountLogin, each started only after the previous succeeded, and on success
invokes the callback with SUCCESSFUL_VERIFICATION; one catch around the whole
sequence turns any failure into the single 2FA failure message; otherwise it
only shows the wrong-length message. -/
def TwoFaForm.onFormSubmit (code : String) (o : TwoFaOutcomes)
    (s : ICloudClientSessionData) : TwoFaSubmitResult :=
  if code.length = 6 then
    match verify2faCode o.verifyOk s with
    | Except.error _ =>
      { calls := [ClientCall.verify2faCode]
        sessionData := s
        errorMessage := some twoFaFailureMessage
        callbackAction := none }
    | Except.ok s1 =>
      match trustDevice o.trustOk s1 with
      | Except.error _ =>
        { calls := [ClientCall.verify2faCode, ClientCall.trustDevice]
          sessionData := s1
          errorMessage := some twoFaFailureMessage
          callbackAction := none }
      | Except.ok s2 =>
        match accountLogin o.loginOk s2 with
        | Except.error _ =>
          { calls := [ClientCall.verify2faCode, ClientCall.trustDevice,
              ClientCall.accountLogin]
            sessionData := s2
            errorMessage := some twoFaFailureMessage
            callbackAction := none }
        | Except.ok s3 =>
          { calls := [ClientCall.verify2faCode, ClientCall.trustDevice,
              ClientCall.accountLogin]
            sessionData := s3
            errorMessage := none
            callbackAction := some SUCCESSFUL_VERIFICATION }
  else
    { calls := []
      sessionData := s
      errorMessage := some twoFaLengthMessage
      callbackAction := none }

/-- The phase after a TwoFaForm submission: the TwoFaForm is the screen of
SignedIn, so its transition callback applies the SignedIn table row (Popup.tsx
lines 893-897); when no callback action fired the phase stays SignedIn. -/
def phaseAfterTwoFa (r : TwoFaSubmitResult) : Option PopupState :=
  match r.callbackAction with
  | none => some SignedIn
  | some a => STATE_MACHINE_TRANSITIONS SignedIn a

/-- The payload of a LogInResponse message (declared in the messages module,
not under src/; the fields used by Popup.tsx are success and an optional
continuation action). -/
structure LogInResponseData where
  success : Bool
  action : Option PopupAction
deriving DecidableEq, Repr

/-- Steps the LogInResponse listener performs, in order. -/
inductive SignInEvent where
  | refreshSession
  | applyAction (a : PopupAction)
  | showError
deriving DecidableEq, Repr

/-- The inline error message literal of the SignInForm listener (Popup.tsx
line 109). -/
def signInFailureMessage : String :=
  "Failed to sign in. Please try again."

/-- Observable outcome of one LogInResponse message delivery. -/
structure SignInListenerResult where
  events : List SignInEvent
  sessionData : ICloudClientSessionData
  phase : Option PopupState
  errorMessage : Option String
deriving DecidableEq, Repr

/-- Embedding of the LogInResponse message listener of SignInForm (Popup.tsx
lines 98-113): on success it first awaits client.refreshSession(), which
re-reads the persisted SessionData (`stored`, written by the background
sign-in context) into the live session, and only then, if the response
carries an action, invokes the transition callback; the SignInForm is the
screen of phase p, whose callback applies the table row of p (lines 888-892).
On failure it only sets the inline error. -/
def SignInForm.onLogInResponse (msg : LogInResponseData)
    (stored s : ICloudClientSessionData) (p : PopupState) : SignInListenerResult :=
  if msg.success then
    match msg.action with
    | some a =>
      { events := [SignInEvent.refreshSession, SignInEvent.applyAction a]
        sessionData := stored
        phase := STATE_MACHINE_TRANSITIONS p a
        errorMessage := none }
    | none =>
      { events := [SignInEvent.refreshSession]
        sessionData := stored
        phase := some p
        errorMessage := none }
  else
    { events := [SignInEvent.showError]
      sessionData := s
      phase := some p
      errorMessage := some signInFailureMessage }

/-- The HmeEmail record (declared in the iCloudClient module, not under src/);
the manager grid selection logic treats it opaquely, so only the fields the
grid reads are carried. -/
structure HmeEmail where
  hme : String
  hmeLabel : String
  isActive : Bool
deriving DecidableEq, Repr

/-- JavaScript array indexing hmeEmails[idx]: undefined (here none) for a
negative or out-of-range index. -/
def jsIndex (emails : List HmeEmail) (idx : Int) : Option HmeEmail :=
  if idx < 0 then none else emails[idx.toNat]?

/-- Embedding of the selected-index clamp at the top of the hmeListGrid
renderer of HmeManager (Popup.tsx lines 764-766): if
selectedHmeIdx >= hmeEmails.length then
setSelectedHmeIdx(hmeEmails.length - 1). React re-renders before committing a
render-phase state update, so the committed render uses the clamped index. -/
def normalizeSelectedHmeIdx (len : Nat) (idx : Int) : Int :=
  if (len : Int) ≤ idx then (len : Int) - 1 else idx

/-- The committed selection of the hmeListGrid renderer (Popup.tsx lines
760-768 and 824-833): the clamped index together with
selectedHmeEmail = hmeEmails[selectedHmeIdx]; the details panel is rendered
iff selectedHmeEmail is defined. -/
def hmeListGridSelection (emails : List HmeEmail) (idx : Int) :
    Int × Option HmeEmail :=
  let clamped := normalizeSelectedHmeIdx emails.length idx
  (clamped, jsIndex emails clamped)

/-- C1: every documented (phase, action) pair transitions to exactly the
documented next phase, and the unhandled-phase error branch of the dispatcher
is unreachable: for every phase the dispatcher returns a screen. -/
theorem stateMachine_transitions_documented :
    STATE_MACHINE_TRANSITIONS SignedOut SUCCESSFUL_SIGN_IN = some SignedIn ∧
    STATE_MACHINE_TRANSITIONS SignedIn SUCCESSFUL_VERIFICATION = some Verified ∧
    STATE_MACHINE_TRANSITIONS SignedIn SUCCESSFUL_SIGN_OUT = some SignedOut ∧
    STATE_MACHINE_TRANSITIONS Verified MANAGE = some VerifiedAndManaging ∧
    STATE_MACHINE_TRANSITIONS Verified SUCCESSFUL_SIGN_OUT = some SignedOut ∧
    STATE_MACHINE_TRANSITIONS VerifiedAndManaging GENERATE = some Verified ∧
    STATE_MACHINE_TRANSITIONS VerifiedAndManaging SUCCESSFUL_SIGN_OUT = some SignedOut ∧
    ∀ state : PopupState, ∃ scr : Screen,
      transitionToNextStateElement state = Except.ok scr := by
  refine ⟨?_, ?_, ?_, ?_, ?_, ?_, ?_, ?_⟩
  all_goals first
    | decide
    | (intro state; cases state <;> exact ⟨_, rfl⟩)

/-- C2 counterexample: a session that is present (non-empty SessionData) but
not authenticated (no verified-session markers). On activation the controller
does not call validateToken() for it, refuting the claim that revalidation
runs whenever a session is present. -/
theorem validateSession_present_session_not_validated :
    sessionPresent ⟨[("scnt", "token-1")], []⟩ = true ∧
    (validateSession true true true ⟨[("scnt", "token-1")], []⟩
        Verified).calledValidateToken = false := by
  decide

/-- C2 amended: on every activation, whenever the client is authenticated
(the guard the code uses, strictly stronger than session presence), the
controller calls validateToken(); if it fails, logOut() runs and the phase is
forced to SignedOut with SessionData cleared, regardless of the persisted
phase — so after such a revalidation pass the phase never claims
Verified/VerifiedAndManaging on an invalid session. -/
theorem validateSession_authenticated_revalidates
    (tokenOk remoteOk ctxMenuOk : Bool) (s : ICloudClientSessionData)
    (p : PopupState) (h : authenticated s = true) :
    (validateSession tokenOk remoteOk ctxMenuOk s p).calledValidateToken = true ∧
    (tokenOk = false →
      (validateSession tokenOk remoteOk ctxMenuOk s p).calledLogOut = true ∧
      (validateSession tokenOk remoteOk ctxMenuOk s p).sessionData =
        EMPTY_SESSION_DATA ∧
      (validateSession tokenOk remoteOk ctxMenuOk s p).phase = SignedOut) := by
  cases tokenOk <;>
    simp [validateSession, validateToken, h, logOut, clientLogOut]

/-- C2 witness: the amended theorem applied to an authenticated session with
a failing token validation, starting from the persisted phase Verified. -/
theorem validateSession_authenticated_revalidates_witness :
    authenticated ⟨[("scnt", "token-1")], [("verified-session", "true")]⟩ = true ∧
    ((validateSession false true true
        ⟨[("scnt", "token-1")], [("verified-session", "true")]⟩
        Verified).calledValidateToken = true ∧
      (false = false →
        (validateSession false true true
            ⟨[("scnt", "token-1")], [("verified-session", "true")]⟩
            Verified).calledLogOut = true ∧
        (validateSession false true true
            ⟨[("scnt", "token-1")], [("verified-session", "true")]⟩
            Verified).sessionData = EMPTY_SESSION_DATA ∧
        (validateSession false true true
            ⟨[("scnt", "token-1")], [("verified-session", "true")]⟩
            Verified).phase = SignedOut)) :=
  ⟨by decide,
    validateSession_authenticated_revalidates false true true
      ⟨[("scnt", "token-1")], [("verified-session", "true")]⟩ Verified (by decide)⟩

/-- C3: a second-factor attempt with a 6-character code that fails at the
trustDevice step or at any later step leaves SessionData equal to its
pre-attempt value, reports the single verification-failure message, and fires
no transition action. -/
theorem twoFa_failure_preserves_session (code : String) (o : TwoFaOutcomes)
    (s : ICloudClientSessionData) (hlen : code.length = 6)
    (hv : o.verifyOk = true) (hfail : o.trustOk = false ∨ o.loginOk = false) :
    (TwoFaForm.onFormSubmit code o s).sessionData = s ∧
    (TwoFaForm.onFormSubmit code o s).errorMessage = some twoFaFailureMessage ∧
    (TwoFaForm.onFormSubmit code o s).callbackAction = none := by
  obtain ⟨v, t, l⟩ := o
  cases t <;> cases l <;>
    simp_all [TwoFaForm.onFormSubmit, verify2faCode, trustDevice, accountLogin]

/-- C3 witness: the theorem applied to the code 123456 with the device-trust
call failing after a successful code verification. -/
theorem twoFa_failure_preserves_session_witness :
    ("123456".length = 6 ∧
      (⟨true, false, true⟩ : TwoFaOutcomes).verifyOk = true ∧
      ((⟨true, false, true⟩ : TwoFaOutcomes).trustOk = false ∨
        (⟨true, false, true⟩ : TwoFaOutcomes).loginOk = false)) ∧
    ((TwoFaForm.onFormSubmit "123456" ⟨true, false, true⟩
        ⟨[("scnt", "token-1")], []⟩).sessionData = ⟨[("scnt", "token-1")], []⟩ ∧
      (TwoFaForm.onFormSubmit "123456" ⟨true, false, true⟩
        ⟨[("scnt", "token-1")], []⟩).errorMessage = some twoFaFailureMessage ∧
      (TwoFaForm.onFormSubmit "123456" ⟨true, false, true⟩
        ⟨[("scnt", "token-1")], []⟩).callbackAction = none) :=
  ⟨⟨by decide, by decide, Or.inl (by decide)⟩,
    twoFa_failure_preserves_session "123456" ⟨true, false, true⟩
      ⟨[("scnt", "token-1")], []⟩ (by decide) (by decide) (Or.inl (by decide))⟩

/-- C4: submitting the 2FA form with a code whose length is not 6 makes no
client call at all, shows exactly the wrong-length message, leaves
SessionData untouched and keeps the phase at SignedIn. -/
theorem twoFa_wrong_length_no_calls (code : String) (o : TwoFaOutcomes)
    (s : ICloudClientSessionData) (hlen : code.length ≠ 6) :
    (TwoFaForm.onFormSubmit code o s).calls = [] ∧
    (TwoFaForm.onFormSubmit code o s).errorMessage =
      some "Please fill in all of the 6 digits of the code." ∧
    (TwoFaForm.onFormSubmit code o s).sessionData = s ∧
    phaseAfterTwoFa (TwoFaForm.onFormSubmit code o s) = some SignedIn := by
  simp [TwoFaForm.onFormSubmit, hlen, phaseAfterTwoFa, twoFaLengthMessage]

/-- C4 witness: the theorem applied to the two-digit code 12. -/
theorem twoFa_wrong_length_no_calls_witness :
    "12".length ≠ 6 ∧
    ((TwoFaForm.onFormSubmit "12" ⟨true, true, true⟩
        ⟨[("scnt", "token-1")], []⟩).calls = [] ∧
      (TwoFaForm.onFormSubmit "12" ⟨true, true, true⟩
        ⟨[("scnt", "token-1")], []⟩).errorMessage =
        some "Please fill in all of the 6 digits of the code." ∧
      (TwoFaForm.onFormSubmit "12" ⟨true, true, true⟩
        ⟨[("scnt", "token-1")], []⟩).sessionData = ⟨[("scnt", "token-1")], []⟩ ∧
      phaseAfterTwoFa (TwoFaForm.onFormSubmit "12" ⟨true, true, true⟩
        ⟨[("scnt", "token-1")], []⟩) = some SignedIn) :=
  ⟨by decide,
    twoFa_wrong_length_no_calls "12" ⟨true, true, true⟩
      ⟨[("scnt", "token-1")], []⟩ (by decide)⟩

/-- C5: a 6-character submission on which all three provider calls succeed
starts verify2faCode, trustDevice and accountLogin strictly in that order,
then fires SUCCESSFUL_VERIFICATION, moving the phase from SignedIn to
Verified with `authenticated` true. -/
theorem twoFa_success_order_and_phase (code : String) (o : TwoFaOutcomes)
    (s : ICloudClientSessionData) (hlen : code.length = 6)
    (hv : o.verifyOk = true) (ht : o.trustOk = true) (hl : o.loginOk = true) :
    (TwoFaForm.onFormSubmit code o s).calls =
      [ClientCall.verify2faCode, ClientCall.trustDevice, ClientCall.accountLogin] ∧
    (TwoFaForm.onFormSubmit code o s).callbackAction =
      some SUCCESSFUL_VERIFICATION ∧
    phaseAfterTwoFa (TwoFaForm.onFormSubmit code o s) = some Verified ∧
    authenticated (TwoFaForm.onFormSubmit code o s).sessionData = true := by
  obtain ⟨v, t, l⟩ := o
  simp_all [TwoFaForm.onFormSubmit, verify2faCode, trustDevice, accountLogin,
    phaseAfterTwoFa, authenticated, STATE_MACHINE_TRANSITIONS]

/-- C5 witness: the theorem applied to the code 123456 with all three
provider calls succeeding. -/
theorem twoFa_success_order_and_phase_witness :
    ("123456".length = 6 ∧
      (⟨true, true, true⟩ : TwoFaOutcomes).verifyOk = true ∧
      (⟨true, true, true⟩ : TwoFaOutcomes).trustOk = true ∧
      (⟨true, true, true⟩ : TwoFaOutcomes).loginOk = true) ∧
    ((TwoFaForm.onFormSubmit "123456" ⟨true, true, true⟩
        ⟨[("scnt", "token-1")], []⟩).calls =
        [ClientCall.verify2faCode, ClientCall.trustDevice,
          ClientCall.accountLogin] ∧
      (TwoFaForm.onFormSubmit "123456" ⟨true, true, true⟩
        ⟨[("scnt", "token-1")], []⟩).callbackAction =
        some SUCCESSFUL_VERIFICATION ∧
      phaseAfterTwoFa (TwoFaForm.onFormSubmit "123456" ⟨true, true, true⟩
        ⟨[("scnt", "token-1")], []⟩) = some Verified ∧
      authenticated (TwoFaForm.onFormSubmit "123456" ⟨true, true, true⟩
        ⟨[("scnt", "token-1")], []⟩).sessionData = true) :=
  ⟨⟨by decide, by decide, by decide, by decide⟩,
    twoFa_success_order_and_phase "123456" ⟨true, true, true⟩
      ⟨[("scnt", "token-1")], []⟩ (by decide) (by decide) (by decide) (by decide)⟩

/-- C6: the screen of every phase except SignedOut offers the sign-out
button, the SignedOut screen does not, and clicking it always clears
SessionData and sets the phase to SignedOut together, in one handler, from
whichever phase it was triggered. -/
theorem signOut_available_and_resets_together (remoteOk ctxMenuOk : Bool)
    (s : ICloudClientSessionData) (p : PopupState) :
    (∀ scr : Screen, transitionToNextStateElement p = Except.ok scr →
      (screenOffersSignOut scr = true ↔ p ≠ SignedOut)) ∧
    (p ≠ SignedOut →
      SignOutButton.onClick remoteOk ctxMenuOk s p =
        (EMPTY_SESSION_DATA, some SignedOut)) := by
  constructor
  · intro scr hscr
    cases p <;> cases scr <;>
      simp_all [transitionToNextStateElement, screenOffersSignOut]
  · intro hp
    cases p <;>
      simp_all [SignOutButton.onClick, logOut, clientLogOut,
        STATE_MACHINE_TRANSITIONS]

/-- C6 witness: the theorem applied at the VerifiedAndManaging phase with a
non-empty session. -/
theorem signOut_available_and_resets_together_witness :
    ((∀ scr : Screen,
        transitionToNextStateElement VerifiedAndManaging = Except.ok scr →
        (screenOffersSignOut scr = true ↔ VerifiedAndManaging ≠ SignedOut)) ∧
      (VerifiedAndManaging ≠ SignedOut →
        SignOutButton.onClick true true
          ⟨[("scnt", "token-1")], [("verified-session", "true")]⟩
          VerifiedAndManaging = (EMPTY_SESSION_DATA, some SignedOut))) ∧
    SignOutButton.onClick true true
      ⟨[("scnt", "token-1")], [("verified-session", "true")]⟩
      VerifiedAndManaging = (EMPTY_SESSION_DATA, some SignedOut) :=
  have h := signOut_available_and_resets_together true true
    ⟨[("scnt", "token-1")], [("verified-session", "true")]⟩ VerifiedAndManaging
  ⟨h, h.2 (by decide)⟩

/-- C7: the popup sign-out helper always clears SessionData to the empty
value and never surfaces an error to its caller; a failing remote
session-invalidation call is only logged among the swallowed errors and does
not prevent the local clear. -/
theorem logOut_swallows_remote_failure (remoteOk ctxMenuOk : Bool)
    (s : ICloudClientSessionData) :
    (logOut remoteOk ctxMenuOk s).sessionData = EMPTY_SESSION_DATA ∧
    (logOut remoteOk ctxMenuOk s).raisedError = none ∧
    (remoteOk = false →
      "session invalidation request failed" ∈
        (logOut remoteOk ctxMenuOk s).swallowedErrors) := by
  cases remoteOk <;> cases ctxMenuOk <;> simp [logOut, clientLogOut]

/-- C7 witness: the theorem applied to a failing remote invalidation on a
non-empty session. -/
theorem logOut_swallows_remote_failure_witness :
    ((logOut false true ⟨[("scnt", "token-1")], []⟩).sessionData =
        EMPTY_SESSION_DATA ∧
      (logOut false true ⟨[("scnt", "token-1")], []⟩).raisedError = none ∧
      (false = false →
        "session invalidation request failed" ∈
          (logOut false true ⟨[("scnt", "token-1")], []⟩).swallowedErrors)) ∧
    "session invalidation request failed" ∈
      (logOut false true ⟨[("scnt", "token-1")], []⟩).swallowedErrors :=
  have h := logOut_swallows_remote_failure false true ⟨[("scnt", "token-1")], []⟩
  ⟨h, h.2.2 rfl⟩

/-- C8: a successful LogInResponse first refreshes the session from the
persisted data written by the background sign-in context and then applies the
continuation action: from SignedOut with action SUCCESSFUL_SIGN_IN this
yields phase SignedIn with the (non-empty) stored SessionData; a failed
response only shows the inline error and applies no transition. -/
theorem signIn_response_refresh_then_transition
    (stored s : ICloudClientSessionData) (p : PopupState)
    (hstored : stored ≠ EMPTY_SESSION_DATA) :
    (SignInForm.onLogInResponse ⟨true, some SUCCESSFUL_SIGN_IN⟩ stored s
        SignedOut).events =
      [SignInEvent.refreshSession, SignInEvent.applyAction SUCCESSFUL_SIGN_IN] ∧
    (SignInForm.onLogInResponse ⟨true, some SUCCESSFUL_SIGN_IN⟩ stored s
        SignedOut).phase = some SignedIn ∧
    (SignInForm.onLogInResponse ⟨true, some SUCCESSFUL_SIGN_IN⟩ stored s
        SignedOut).sessionData = stored ∧
    sessionPresent (SignInForm.onLogInResponse ⟨true, some SUCCESSFUL_SIGN_IN⟩
        stored s SignedOut).sessionData = true ∧
    ∀ a : Option PopupAction,
      (SignInForm.onLogInResponse ⟨false, a⟩ stored s p).errorMessage =
        some signInFailureMessage ∧
      (SignInForm.onLogInResponse ⟨false, a⟩ stored s p).phase = some p ∧
      (SignInForm.onLogInResponse ⟨false, a⟩ stored s p).sessionData = s := by
  refine ⟨rfl, by simp [SignInForm.onLogInResponse, STATE_MACHINE_TRANSITIONS],
    rfl, ?_, ?_⟩
  · simp [SignInForm.onLogInResponse, sessionPresent, hstored]
  · intro a
    simp [SignInForm.onLogInResponse, signInFailureMessage]

/-- C8 witness: the theorem applied to stored session data written by the
background context, starting from an empty local session at SignedOut. -/
theorem signIn_response_refresh_then_transition_witness :
    (⟨[("scnt", "token-1")], []⟩ : ICloudClientSessionData) ≠
      EMPTY_SESSION_DATA ∧
    ((SignInForm.onLogInResponse ⟨true, some SUCCESSFUL_SIGN_IN⟩
        ⟨[("scnt", "token-1")], []⟩ EMPTY_SESSION_DATA SignedOut).events =
      [SignInEvent.refreshSession, SignInEvent.applyAction SUCCESSFUL_SIGN_IN] ∧
      (SignInForm.onLogInResponse ⟨true, some SUCCESSFUL_SIGN_IN⟩
        ⟨[("scnt", "token-1")], []⟩ EMPTY_SESSION_DATA SignedOut).phase =
        some SignedIn ∧
      (SignInForm.onLogInResponse ⟨true, some SUCCESSFUL_SIGN_IN⟩
        ⟨[("scnt", "token-1")], []⟩ EMPTY_SESSION_DATA SignedOut).sessionData =
        ⟨[("scnt", "token-1")], []⟩ ∧
      sessionPresent (SignInForm.onLogInResponse ⟨true, some SUCCESSFUL_SIGN_IN⟩
        ⟨[("scnt", "token-1")], []⟩ EMPTY_SESSION_DATA SignedOut).sessionData =
        true ∧
      ∀ a : Option PopupAction,
        (SignInForm.onLogInResponse ⟨false, a⟩ ⟨[("scnt", "token-1")], []⟩
          EMPTY_SESSION_DATA SignedOut).errorMessage =
          some signInFailureMessage ∧
        (SignInForm.onLogInResponse ⟨false, a⟩ ⟨[("scnt", "token-1")], []⟩
          EMPTY_SESSION_DATA SignedOut).phase = some SignedOut ∧
        (SignInForm.onLogInResponse ⟨false, a⟩ ⟨[("scnt", "token-1")], []⟩
          EMPTY_SESSION_DATA SignedOut).sessionData = EMPTY_SESSION_DATA) :=
  ⟨by decide,
    signIn_response_refresh_then_transition ⟨[("scnt", "token-1")], []⟩
      EMPTY_SESSION_DATA SignedOut (by decide)⟩

/-- C9: the full sign-out path (logOut together with the SUCCESSFUL_SIGN_OUT
transition) always results in the empty SessionData and the SignedOut phase,
and invoking it twice in a row from any state yields exactly the same result
as invoking it once. -/
theorem signOutPath_idempotent (o1 o2 o3 o4 : Bool)
    (st : ICloudClientSessionData × PopupState) :
    signOutPath o1 o2 st = (EMPTY_SESSION_DATA, SignedOut) ∧
    signOutPath o3 o4 (signOutPath o1 o2 st) = signOutPath o1 o2 st := by
  obtain ⟨s, p⟩ := st
  cases p <;>
    simp [signOutPath, logOut, clientLogOut, STATE_MACHINE_TRANSITIONS]

/-- C10: the committed manager-grid render clamps a selected index that is
not below the displayed list length down to length - 1; consequently for a
non-empty displayed list the selected email exists (so the details panel
renders), while for an empty filtered list the index becomes -1 and no email
is selected, with no out-of-bounds access. -/
theorem hmeListGrid_selection_safe (emails : List HmeEmail) (idx : Int)
    (h : 0 ≤ idx) :
    ((emails.length : Int) ≤ idx →
      (hmeListGridSelection emails idx).1 = (emails.length : Int) - 1) ∧
    (emails ≠ [] → (hmeListGridSelection emails idx).2.isSome = true) ∧
    (emails = [] →
      (hmeListGridSelection emails idx).1 = -1 ∧
      (hmeListGridSelection emails idx).2 = none) := by
  refine ⟨?_, ?_, ?_⟩
  · intro hle
    simp [hmeListGridSelection, normalizeSelectedHmeIdx, hle]
  · intro hne
    have hlen : 0 < emails.length := List.length_pos.mpr hne
    by_cases hle : (emails.length : Int) ≤ idx
    · have h1 : ¬(((emails.length : Int) - 1) < 0) := by omega
      have h2 : emails.length - 1 < emails.length := by omega
      simp [hmeListGridSelection, normalizeSelectedHmeIdx, jsIndex, hle, h1,
        List.getElem?_eq_getElem h2]
    · have h2 : idx.toNat < emails.length := by omega
      have h1 : ¬(idx < 0) := by omega
      simp [hmeListGridSelection, normalizeSelectedHmeIdx, jsIndex, hle, h1,
        List.getElem?_eq_getElem h2]
  · intro hnil
    subst hnil
    simp [hmeListGridSelection, normalizeSelectedHmeIdx, jsIndex, h]

/-- C10 witness: the theorem applied to a one-element list with the stale
selected index 5, and to the concrete clamp results. -/
theorem hmeListGrid_selection_safe_witness :
    (0 : Int) ≤ 5 ∧
    ((((([⟨"a@icloud.com", "site-a", true⟩] : List HmeEmail)).length : Int) ≤ 5 →
      (hmeListGridSelection [⟨"a@icloud.com", "site-a", true⟩] 5).1 =
        ((([⟨"a@icloud.com", "site-a", true⟩] : List HmeEmail)).length : Int) - 1) ∧
      (([⟨"a@icloud.com", "site-a", true⟩] : List HmeEmail) ≠ [] →
        (hmeListGridSelection [⟨"a@icloud.com", "site-a", true⟩] 5).2.isSome =
          true) ∧
      (([⟨"a@icloud.com", "site-a", true⟩] : List HmeEmail) = [] →
        (hmeListGridSelection [⟨"a@icloud.com", "site-a", true⟩] 5).1 = -1 ∧
        (hmeListGridSelection [⟨"a@icloud.com", "site-a", true⟩] 5).2 = none)) :=
  ⟨by decide,
    hmeListGrid_selection_safe [⟨"a@icloud.com", "site-a", true⟩] 5 (by decide)⟩

end Popup
